import Mathlib

/-!
Shallow embedding of the ualBot update router and its handlers, translated
from the two source variants of the repository: the polling variant
(src/bot.js) and the webhook variant. Stateful MongoDB collections are
modelled as explicit lists threaded through the handlers; every awaited
external call (generative-AI completion, web search, file resolution,
download, store write) is modelled by passing its outcome in as an
Except value, where an error value stands for a thrown rejection that the
surrounding try block catches.
-/

namespace UalBot

/-- Boolean translation of the JS String startsWith test, over character lists. -/
def jsStartsWith (s pat : String) : Bool := decide (pat.data <+: s.data)

/-- Boolean translation of the JS String endsWith test, over character lists. -/
def jsEndsWith (s pat : String) : Bool := decide (pat.data <:+ s.data)

/-- Boolean test for an unanchored regular-expression match of a literal
pattern, as used by bot.onText with a pattern free of metacharacters. -/
def containsJs (s pat : String) : Bool := decide (pat.data <:+: s.data)

/-- Leftmost match of the websearch route regex: scans for the first position
where the literal pattern occurs followed by at least one character other
than a newline, and returns the capture group, the maximal run of
non-newline characters after the pattern. -/
def wsQueryAux (pat : List Char) : List Char → Option (List Char)
  | [] => none
  | c :: rest =>
    if pat.isPrefixOf (c :: rest) then
      let q := ((c :: rest).drop pat.length).takeWhile (fun ch => ch != '\n')
      if q.isEmpty then wsQueryAux pat rest else some q
    else wsQueryAux pat rest

/-- Capture group of the websearch route, matching the source regex of
bot.onText for the websearch command. -/
def websearchQuery (t : String) : Option String :=
  (wsQueryAux ("/websearch ".data) t.data).map fun l => String.mk l

/-- A stored user registration record, following userSchema in the source. -/
structure User where
  chat_id : Int
  first_name : String
  username : String
  phone_number : Option String
deriving DecidableEq

/-- A stored conversation turn, following chatSchema in the source. -/
structure ChatTurn where
  chat_id : Int
  user_input : String
  bot_response : String
deriving DecidableEq

/-- The persistent store: the User and Chat collections. -/
structure Store where
  users : List User
  turns : List ChatTurn
deriving DecidableEq

/-- The empty store. -/
def store0 : Store := { users := [], turns := [] }

/-- An inbound Telegram message as the handlers read it: the chat fields plus
at most one payload among text, shared contact and photo-size list. -/
structure Msg where
  chat_id : Int
  first_name : String
  username : String
  text : Option String := none
  contact_phone : Option String := none
  photo : List String := []
deriving DecidableEq

/-- A text-only inbound message. -/
def mkTextMsg (cid : Int) (fn un t : String) : Msg :=
  { chat_id := cid, first_name := fn, username := un, text := some t }

/-- One search result item of the custom-search response. -/
structure SearchItem where
  title : String
  link : String
deriving DecidableEq

/-- Outcome of an awaited generative call in the polling variant: a thrown
rejection, or the text extracted from the response. -/
abbrev AIResult := Except Unit String

/-- Outcome of an awaited generative call in the webhook variant: a thrown
rejection, or an optional first-candidate text, absent when the response
carries no usable candidate part. -/
abbrev AIResultW := Except Unit (Option String)

/-- Outcome of the search request: a thrown rejection, or response data whose
items field may be absent; an absent items field makes the slice call throw
inside the try block. -/
abbrev SearchResult := Except Unit (Option (List SearchItem))

/-- Outcome of an awaited store write. -/
abbrev SaveResult := Except Unit Unit

/-- File metadata returned by getFile. -/
structure FileInfo where
  file_path : String
deriving DecidableEq

/-- Outcome of getFile. -/
abbrev FileResult := Except Unit FileInfo

/-- Outcome of the image download, as raw bytes. -/
abbrev DownloadResult := Except Unit (List Nat)

/-- Fixed apology of the polling-variant chat route. -/
def chatApology : String :=
  "Sorry, I couldn\u0027t process your request. Please try again later."

/-- Fixed apology of the webhook-variant chat route. -/
def chatApologyW : String := "Sorry, I couldn\u0027t process your request."

/-- Fallback text the webhook variant substitutes for a missing candidate. -/
def fallbackW : String := "Sorry, I couldn\u0027t understand that."

/-- Fixed error reply of the websearch route. -/
def searchErr : String := "Error fetching search results."

/-- Fallback summary text of the webhook websearch route. -/
def noSummaryW : String := "No summary available."

/-- Fixed error reply of the photo route. -/
def imgErr : String := "Error analyzing the image."

/-- Fallback description text of the webhook photo route. -/
def noDescriptionW : String := "No description available."

/-- Reply of the help route of the polling variant. -/
def helpText : String :=
  "This bot can perform the following tasks: \n 1. Enter /start to start the bot. \n 2. Type any question to ask. \n 3. Send an image for analysis. \n 4. Before your questions, if you include /websearch you will get top 3 results from the web and their summary. "

/-- Mongo findOne on the User collection: the first record carrying the given
chat id. -/
def findOne : List User → Int → Option User
  | [], _ => none
  | u :: rest, cid => if u.chat_id == cid then some u else findOne rest cid

/-- The start route: registration. On an unknown chat id it saves a fresh
record and sends the welcome message followed by the contact-request
message; on a known chat id it only sends the welcome-back message. -/
def startHandler (store : Store) (m : Msg) : Store × List String :=
  match findOne store.users m.chat_id with
  | none =>
    ({ store with users := store.users ++
        [{ chat_id := m.chat_id, first_name := m.first_name,
           username := m.username, phone_number := none }] },
     ["Welcome, " ++ m.first_name ++
        "! You can ask questions to this bot. Feel free to drop any questions here",
      "To continue chatting, please share your Phone Number by clicking the button next to the typing area."])
  | some _ =>
    (store,
     ["Welcome back " ++ m.first_name ++
        "! Please ask a question. I will be happy to assist you!!"])

/-- Mongo updateOne with a chat-id filter and a phone-number update document:
rewrites the phone number of the first matching record and nothing else;
there is no upsert option, so no record is ever created here. -/
def updateOnePhone : List User → Int → String → List User
  | [], _, _ => []
  | u :: rest, cid, phone =>
    if u.chat_id == cid then { u with phone_number := some phone } :: rest
    else u :: updateOnePhone rest cid phone

/-- The contact route: stores the submitted phone number and confirms. -/
def contactHandler (store : Store) (cid : Int) (phone : String) :
    Store × List String :=
  ({ store with users := updateOnePhone store.users cid phone },
   ["Phone number saved successfully! Now you can start asking questions."])

/-- The chat route of the polling variant, with the outcomes of the awaited
generative call and of the awaited store write passed in. The write is
awaited before the reply is sent, inside the try block. -/
def chatHandler (store : Store) (cid : Int) (text : String)
    (ai : AIResult) (save : SaveResult) : Store × List String :=
  match ai with
  | Except.error _ => (store, [chatApology])
  | Except.ok response =>
    match save with
    | Except.error _ => (store, [chatApology])
    | Except.ok _ =>
      ({ store with turns := store.turns ++
          [{ chat_id := cid, user_input := text, bot_response := response }] },
       [response])

/-- The chat route of the webhook variant: a missing candidate is replaced by
the fallback text before the write and the reply. -/
def chatHandlerW (store : Store) (cid : Int) (text : String)
    (ai : AIResultW) (save : SaveResult) : Store × List String :=
  match ai with
  | Except.error _ => (store, [chatApologyW])
  | Except.ok cand =>
    let response := cand.getD fallbackW
    match save with
    | Except.error _ => (store, [chatApologyW])
    | Except.ok _ =>
      ({ store with turns := store.turns ++
          [{ chat_id := cid, user_input := text, bot_response := response }] },
       [response])

/-- Rendering of the search items: slice to the first three, template each one
as title, newline, link. -/
def renderedBlocks (items : List SearchItem) : List String :=
  (items.take 3).map fun i => i.title ++ "\n" ++ i.link

/-- Join of the rendered blocks with a blank line, as in the source. -/
def renderResults (items : List SearchItem) : String :=
  String.intercalate "\n\n" (renderedBlocks items)

/-- Modelled from the spec wording of the Search Handler rendering step: at
most the first 3 results, each rendered as title, newline, link, joined
with blank lines, in the returned order. -/
def specRenderSearch (items : List SearchItem) : String :=
  String.intercalate "\n\n" ((items.take 3).map fun i => i.title ++ "\n" ++ i.link)

/-- The websearch route of the polling variant, with the outcomes of the
search request, the summarization call and the store write passed in. -/
def searchHandler (store : Store) (cid : Int) (query : String)
    (search : SearchResult) (ai : AIResult) (save : SaveResult) :
    Store × List String :=
  match search with
  | Except.error _ => (store, [searchErr])
  | Except.ok none => (store, [searchErr])
  | Except.ok (some items) =>
    let searchResults := renderResults items
    match ai with
    | Except.error _ => (store, [searchErr])
    | Except.ok summary =>
      match save with
      | Except.error _ => (store, [searchErr])
      | Except.ok _ =>
        ({ store with turns := store.turns ++
            [{ chat_id := cid, user_input := query, bot_response := summary }] },
         ["🔍 Top search results:\n\n" ++ searchResults ++
            "\n\n📝 Summary:\n\n" ++ summary])

/-- The websearch route of the webhook variant: a missing candidate becomes
the fallback summary and the reply format differs slightly. -/
def searchHandlerW (store : Store) (cid : Int) (query : String)
    (search : SearchResult) (ai : AIResultW) (save : SaveResult) :
    Store × List String :=
  match search with
  | Except.error _ => (store, [searchErr])
  | Except.ok none => (store, [searchErr])
  | Except.ok (some items) =>
    let searchResults := renderResults items
    match ai with
    | Except.error _ => (store, [searchErr])
    | Except.ok cand =>
      let summary := cand.getD noSummaryW
      match save with
      | Except.error _ => (store, [searchErr])
      | Except.ok _ =>
        ({ store with turns := store.turns ++
            [{ chat_id := cid, user_input := query, bot_response := summary }] },
         ["🔍 Search Results:\n\n" ++ searchResults ++
            "\n\n📝 Summary:\n" ++ summary])

/-- Mime inference of the polling variant. -/
def mimeOf (path : String) : String :=
  if jsEndsWith path ".png" then "image/png"
  else if jsEndsWith path ".webp" then "image/webp"
  else "image/jpeg"

/-- Mime inference of the webhook variant: there is no webp case. -/
def mimeOfWebhook (path : String) : String :=
  if jsEndsWith path ".png" then "image/png" else "image/jpeg"

/-- The photo route of the polling variant, with the outcomes of getFile, the
download, the generative call and the store write passed in. -/
def photoHandler (store : Store) (cid : Int) (_fileId : String)
    (getFile : FileResult) (download : DownloadResult)
    (ai : AIResult) (save : SaveResult) : Store × List String :=
  match getFile with
  | Except.error _ => (store, [imgErr])
  | Except.ok file =>
    let _mime := mimeOf file.file_path
    match download with
    | Except.error _ => (store, [imgErr])
    | Except.ok _bytes =>
      match ai with
      | Except.error _ => (store, [imgErr])
      | Except.ok description =>
        match save with
        | Except.error _ => (store, [imgErr])
        | Except.ok _ =>
          ({ store with turns := store.turns ++
              [{ chat_id := cid, user_input := "image", bot_response := description }] },
           ["🖼 Image Analysis: " ++ description])

/-- The photo route of the webhook variant: webhook mime inference and a
fallback description for a missing candidate. -/
def photoHandlerW (store : Store) (cid : Int) (_fileId : String)
    (getFile : FileResult) (download : DownloadResult)
    (ai : AIResultW) (save : SaveResult) : Store × List String :=
  match getFile with
  | Except.error _ => (store, [imgErr])
  | Except.ok file =>
    let _mime := mimeOfWebhook file.file_path
    match download with
    | Except.error _ => (store, [imgErr])
    | Except.ok _bytes =>
      match ai with
      | Except.error _ => (store, [imgErr])
      | Except.ok cand =>
        let description := cand.getD noDescriptionW
        match save with
        | Except.error _ => (store, [imgErr])
        | Except.ok _ =>
          ({ store with turns := store.turns ++
              [{ chat_id := cid, user_input := "image", bot_response := description }] },
           ["🖼 Image Analysis: " ++ description])

/-- A photo update end to end: the file id is the last element of the
photo-size list, read before the try block; an empty list would fault with
no reply at all, which the transport contract rules out. -/
def photoUpdate (store : Store) (cid : Int) (photo : List String)
    (getFile : FileResult) (download : DownloadResult)
    (ai : AIResult) (save : SaveResult) : Option (Store × List String) :=
  (photo.getLast?).map fun fid =>
    photoHandler store cid fid getFile download ai save

/-- A sample store with one registered user, used to instantiate theorems. -/
def storeBo : Store :=
  { users := [{ chat_id := 5, first_name := "Bo", username := "bo",
                phone_number := some "000" }],
    turns := [] }

/-- The registered routes. -/
inductive Handler where
  | registration
  | contact
  | help
  | websearch
  | photo
  | chat
deriving DecidableEq

/-- Guard of the polling-variant message route: it acts only on non-empty text
that does not begin with the start command or the websearch command. -/
def messageActs (t : String) : Bool :=
  !t.isEmpty && !(jsStartsWith t "/start") && !(jsStartsWith t "/websearch")

/-- The routes that act on a message in the polling variant: onText routes
fire on an unanchored regex match over the text, the contact and photo
events fire when those payloads are present, and the message event fires
on every message but acts only past its early-return guards. -/
def firesOn (m : Msg) : List Handler :=
  (match m.text with
   | some t => if containsJs t "/start" then [Handler.registration] else []
   | none => []) ++
  (match m.contact_phone with
   | some _ => [Handler.contact]
   | none => []) ++
  (match m.text with
   | some t => if containsJs t "/help" then [Handler.help] else []
   | none => []) ++
  (match m.text with
   | some t => if (websearchQuery t).isSome then [Handler.websearch] else []
   | none => []) ++
  (if m.photo.isEmpty then [] else [Handler.photo]) ++
  (match m.text with
   | some t => if messageActs t then [Handler.chat] else []
   | none => [])

/-- The routes that act on a message in the webhook variant: there is no help
route and the message route has no guard at all, so it acts on every
update. -/
def firesOnW (m : Msg) : List Handler :=
  (match m.text with
   | some t => if containsJs t "/start" then [Handler.registration] else []
   | none => []) ++
  (match m.contact_phone with
   | some _ => [Handler.contact]
   | none => []) ++
  (match m.text with
   | some t => if (websearchQuery t).isSome then [Handler.websearch] else []
   | none => []) ++
  (if m.photo.isEmpty then [] else [Handler.photo]) ++
  [Handler.chat]

/-- All replies produced for one inbound message in the polling variant, with
the external-call outcomes passed in; the acting routes run independently
against the same store, as the event emitter schedules them concurrently. -/
def runUpdate (store : Store) (m : Msg) (ai : AIResult) (save : SaveResult)
    (search : SearchResult) (getFile : FileResult)
    (download : DownloadResult) : List String :=
  (match m.text with
   | some t => if containsJs t "/start" then (startHandler store m).2 else []
   | none => []) ++
  (match m.contact_phone with
   | some p => (contactHandler store m.chat_id p).2
   | none => []) ++
  (match m.text with
   | some t => if containsJs t "/help" then [helpText] else []
   | none => []) ++
  (match m.text with
   | some t =>
     match websearchQuery t with
     | some q => (searchHandler store m.chat_id q search ai save).2
     | none => []
   | none => []) ++
  (match m.photo.getLast? with
   | some fid => (photoHandler store m.chat_id fid getFile download ai save).2
   | none => []) ++
  (match m.text with
   | some t => if messageActs t then (chatHandler store m.chat_id t ai save).2 else []
   | none => [])

set_option maxRecDepth 8192

/-- Bridge between the Boolean startsWith test and the list prefix relation. -/
theorem jsStartsWith_iff (s pat : String) :
    jsStartsWith s pat = true ↔ pat.data <+: s.data := by
  simp [jsStartsWith]

/-- Bridge between the Boolean unanchored-match test and the list infix
relation. -/
theorem containsJs_iff (s pat : String) :
    containsJs s pat = true ↔ pat.data <:+: s.data := by
  simp [containsJs]

/-- No text begins with both the start command and the websearch command. -/
theorem start_websearch_clash (t : String) (h1 : jsStartsWith t "/start" = true)
    (h2 : jsStartsWith t "/websearch" = true) : False := by
  simp only [jsStartsWith, decide_eq_true_eq] at h1 h2
  rcases List.prefix_or_prefix_of_prefix h1 h2 with h | h
  · exact absurd h (by decide)
  · exact absurd h (by decide)

/-- A path ending in the webp extension does not end in the png extension. -/
theorem webp_not_png (p : String) (h : jsEndsWith p ".webp" = true) :
    jsEndsWith p ".png" = false := by
  cases hq : jsEndsWith p ".png" with
  | false => rfl
  | true =>
    exfalso
    simp only [jsEndsWith, decide_eq_true_eq] at h hq
    rcases List.suffix_or_suffix_of_suffix h hq with hh | hh
    · exact absurd hh (by decide)
    · exact absurd hh (by decide)

/-- Appending a fresh record to a collection in which findOne missed makes
findOne return the fresh record exactly when its chat id matches. -/
theorem findOne_append_single (us : List User) (cid : Int) (u : User)
    (h : findOne us cid = none) :
    findOne (us ++ [u]) cid = if u.chat_id == cid then some u else none := by
  induction us with
  | nil => rfl
  | cons v rest ih =>
    cases hv : (v.chat_id == cid) with
    | true => simp [findOne, hv] at h
    | false =>
      simp only [findOne, hv] at h
      simp only [List.cons_append, findOne, hv, Bool.false_eq_true, if_false]
      exact ih h

/-- After the phone-number update, findOne on the same chat id returns the
previously found record with its phone number rewritten. -/
theorem findOne_updateOnePhone (us : List User) (cid : Int) (p : String) :
    findOne (updateOnePhone us cid p) cid =
      (findOne us cid).map fun u => { u with phone_number := some p } := by
  induction us with
  | nil => rfl
  | cons u rest ih =>
    cases hu : (u.chat_id == cid) with
    | true => simp [updateOnePhone, findOne, hu]
    | false => simp [updateOnePhone, findOne, hu, ih]

/-- The phone-number update is idempotent on the collection. -/
theorem updateOnePhone_idem (us : List User) (cid : Int) (p : String) :
    updateOnePhone (updateOnePhone us cid p) cid p = updateOnePhone us cid p := by
  induction us with
  | nil => rfl
  | cons u rest ih =>
    cases hu : (u.chat_id == cid) with
    | true => simp [updateOnePhone, hu]
    | false => simp [updateOnePhone, hu, ih]

/-- A non-empty list has a last element. -/
theorem getLast?_of_ne_nil {α : Type} : (l : List α) → l ≠ [] →
    ∃ a, l.getLast? = some a
  | [], h => absurd rfl h
  | [a], _ => ⟨a, by simp⟩
  | _ :: b :: bs, _ => by
    rcases getLast?_of_ne_nil (b :: bs) (by simp) with ⟨x, hx⟩
    exact ⟨x, by rw [List.getLast?_cons_cons]; exact hx⟩

/-- Reduction of the polling-variant route list on a text-only message. -/
theorem firesOn_text (cid : Int) (fn un t : String) :
    firesOn (mkTextMsg cid fn un t) =
      (if containsJs t "/start" then [Handler.registration] else []) ++
      ((if containsJs t "/help" then [Handler.help] else []) ++
       ((if (websearchQuery t).isSome then [Handler.websearch] else []) ++
        (if messageActs t then [Handler.chat] else []))) := by
  simp [firesOn, mkTextMsg, List.append_assoc]

/-- C2 counterexample: in the chat route a failing store write after a
generated response makes the catch block send the fixed apology, so the
generated reply is not among the sent messages, refuting the claim that a
persistence failure never prevents the reply from being delivered. -/
theorem persistence_failure_blocks_reply_cex :
    chatHandler store0 7 "hi" (Except.ok "The answer is 42.") (Except.error ()) =
      (store0, [chatApology]) ∧
    "The answer is 42." ∉
      (chatHandler store0 7 "hi" (Except.ok "The answer is 42.")
        (Except.error ())).2 :=
  ⟨rfl, by decide⟩

/-- C2 amended: in every handler the store write is awaited before the reply
inside the try block, so a failing write suppresses the generated reply;
the handler sends exactly its fixed error message instead and the store is
unchanged, in both variants. -/
theorem save_failure_only_fixed_error :
    (∀ (store : Store) (cid : Int) (text r : String),
      chatHandler store cid text (Except.ok r) (Except.error ()) =
        (store, [chatApology])) ∧
    (∀ (store : Store) (cid : Int) (query : String) (items : List SearchItem)
      (summary : String),
      searchHandler store cid query (Except.ok (some items)) (Except.ok summary)
          (Except.error ()) =
        (store, [searchErr])) ∧
    (∀ (store : Store) (cid : Int) (fid : String) (f : FileInfo) (b : List Nat)
      (d : String),
      photoHandler store cid fid (Except.ok f) (Except.ok b) (Except.ok d)
          (Except.error ()) =
        (store, [imgErr])) ∧
    (∀ (store : Store) (cid : Int) (text : String) (cand : Option String),
      chatHandlerW store cid text (Except.ok cand) (Except.error ()) =
        (store, [chatApologyW])) ∧
    (∀ (store : Store) (cid : Int) (query : String) (items : List SearchItem)
      (cand : Option String),
      searchHandlerW store cid query (Except.ok (some items)) (Except.ok cand)
          (Except.error ()) =
        (store, [searchErr])) ∧
    (∀ (store : Store) (cid : Int) (fid : String) (f : FileInfo) (b : List Nat)
      (cand : Option String),
      photoHandlerW store cid fid (Except.ok f) (Except.ok b) (Except.ok cand)
          (Except.error ()) =
        (store, [imgErr])) :=
  ⟨fun _ _ _ _ => rfl, fun _ _ _ _ _ => rfl, fun _ _ _ _ _ _ => rfl,
   fun _ _ _ _ => rfl, fun _ _ _ _ _ => rfl, fun _ _ _ _ _ _ => rfl⟩

/-- C3 counterexample: an empty completion is not treated as a failure by the
chat route of the polling variant; a turn with an empty bot response is
appended and the empty string is sent, not the fixed apology, refuting the
claim that an empty completion yields zero turns and the apology. -/
theorem chat_empty_completion_cex :
    (chatHandler store0 7 "hi" (Except.ok "") (Except.ok ())).1.turns.length = 1 ∧
    (chatHandler store0 7 "hi" (Except.ok "") (Except.ok ())).2 = [""] ∧
    (chatHandler store0 7 "hi" (Except.ok "") (Except.ok ())).2 ≠ [chatApology] :=
  ⟨rfl, rfl, by decide⟩

/-- C3 amended: when the generative call returns a completion, empty included,
and the store write succeeds, the chat route appends exactly one turn with
the original text and the returned output and sends that output; when the
generative call throws, or when the write fails, zero turns are appended
and the fixed apology is sent. In the webhook variant a returned response
with a missing candidate part is replaced by the fallback text, which is
appended and sent like a success. -/
theorem chat_turn_rules :
    (∀ (store : Store) (cid : Int) (t r : String),
      chatHandler store cid t (Except.ok r) (Except.ok ()) =
        ({ store with turns := store.turns ++
            [{ chat_id := cid, user_input := t, bot_response := r }] }, [r])) ∧
    (∀ (store : Store) (cid : Int) (t : String) (e : Unit) (sv : SaveResult),
      chatHandler store cid t (Except.error e) sv = (store, [chatApology])) ∧
    (∀ (store : Store) (cid : Int) (t r : String),
      chatHandler store cid t (Except.ok r) (Except.error ()) =
        (store, [chatApology])) ∧
    (∀ (store : Store) (cid : Int) (t : String) (cand : Option String),
      chatHandlerW store cid t (Except.ok cand) (Except.ok ()) =
        ({ store with turns := store.turns ++
            [{ chat_id := cid, user_input := t,
               bot_response := cand.getD fallbackW }] },
         [cand.getD fallbackW])) ∧
    (∀ (store : Store) (cid : Int) (t : String) (e : Unit) (sv : SaveResult),
      chatHandlerW store cid t (Except.error e) sv = (store, [chatApologyW])) :=
  ⟨fun _ _ _ _ => rfl, fun _ _ _ _ _ => rfl, fun _ _ _ _ => rfl,
   fun _ _ _ _ => rfl, fun _ _ _ _ _ => rfl⟩

/-- C4 counterexample: an empty summary does not abort the websearch route;
the turn is appended with the empty summary and the combined reply is sent
rather than the fixed error reply, refuting the claim that an empty
summary aborts with the error reply and no persistence. -/
theorem search_empty_summary_cex :
    (searchHandler store0 7 "q" (Except.ok (some [{ title := "T", link := "L" }]))
        (Except.ok "") (Except.ok ())).1.turns.length = 1 ∧
    (searchHandler store0 7 "q" (Except.ok (some [{ title := "T", link := "L" }]))
        (Except.ok "") (Except.ok ())).2 =
      ["🔍 Top search results:\n\nT\nL\n\n📝 Summary:\n\n"] ∧
    (searchHandler store0 7 "q" (Except.ok (some [{ title := "T", link := "L" }]))
        (Except.ok "") (Except.ok ())).2 ≠ [searchErr] :=
  ⟨rfl, by decide, by decide⟩

/-- C4 amended: a thrown search error, a search response without a result
items field, the shape produced on zero results, or a thrown summarization
error aborts the websearch route with the fixed error reply and no turn is
appended; an empty summary string is not a failure: the turn is appended
and the combined reply is sent, the webhook variant substituting its
fallback text for a missing candidate. -/
theorem search_abort_rules :
    (∀ (store : Store) (cid : Int) (q : String) (e : Unit) (ai : AIResult)
      (sv : SaveResult),
      searchHandler store cid q (Except.error e) ai sv = (store, [searchErr])) ∧
    (∀ (store : Store) (cid : Int) (q : String) (ai : AIResult) (sv : SaveResult),
      searchHandler store cid q (Except.ok none) ai sv = (store, [searchErr])) ∧
    (∀ (store : Store) (cid : Int) (q : String) (items : List SearchItem)
      (e : Unit) (sv : SaveResult),
      searchHandler store cid q (Except.ok (some items)) (Except.error e) sv =
        (store, [searchErr])) ∧
    (∀ (store : Store) (cid : Int) (q : String) (items : List SearchItem)
      (summary : String),
      searchHandler store cid q (Except.ok (some items)) (Except.ok summary)
          (Except.ok ()) =
        ({ store with turns := store.turns ++
            [{ chat_id := cid, user_input := q, bot_response := summary }] },
         ["🔍 Top search results:\n\n" ++ renderResults items ++
            "\n\n📝 Summary:\n\n" ++ summary])) ∧
    (∀ (store : Store) (cid : Int) (q : String) (e : Unit) (ai : AIResultW)
      (sv : SaveResult),
      searchHandlerW store cid q (Except.error e) ai sv = (store, [searchErr])) ∧
    (∀ (store : Store) (cid : Int) (q : String) (ai : AIResultW) (sv : SaveResult),
      searchHandlerW store cid q (Except.ok none) ai sv = (store, [searchErr])) ∧
    (∀ (store : Store) (cid : Int) (q : String) (items : List SearchItem)
      (e : Unit) (sv : SaveResult),
      searchHandlerW store cid q (Except.ok (some items)) (Except.error e) sv =
        (store, [searchErr])) ∧
    (∀ (store : Store) (cid : Int) (q : String) (items : List SearchItem)
      (cand : Option String),
      searchHandlerW store cid q (Except.ok (some items)) (Except.ok cand)
          (Except.ok ()) =
        ({ store with turns := store.turns ++
            [{ chat_id := cid, user_input := q,
               bot_response := cand.getD noSummaryW }] },
         ["🔍 Search Results:\n\n" ++ renderResults items ++
            "\n\n📝 Summary:\n" ++ cand.getD noSummaryW])) :=
  ⟨fun _ _ _ _ _ _ => rfl, fun _ _ _ _ _ => rfl, fun _ _ _ _ _ _ => rfl,
   fun _ _ _ _ _ => rfl, fun _ _ _ _ _ _ => rfl, fun _ _ _ _ _ => rfl,
   fun _ _ _ _ _ _ => rfl, fun _ _ _ _ _ => rfl⟩

/-- C5: the websearch rendering takes at most the first three results,
renders each as title, newline, link, and joins them with blank lines in
the order returned by the search client; it agrees with the rendering
stated by the spec. -/
theorem render_results_spec :
    ∀ items : List SearchItem,
      renderResults items = specRenderSearch items ∧
      renderedBlocks items = renderedBlocks (items.take 3) ∧
      items.take 3 <+: items ∧
      (renderedBlocks items).length ≤ 3 ∧
      renderedBlocks items =
        (items.take 3).map fun i => i.title ++ "\n" ++ i.link := by
  intro items
  refine ⟨rfl, ?_, List.take_prefix 3 items, ?_, rfl⟩
  · simp [renderedBlocks, List.take_take]
  · simp only [renderedBlocks, List.length_map, List.length_take]
    exact min_le_left _ _

/-- C1 counterexample: in the polling variant the text update containing the
help command is acted on by two routes, the help route and the chat route,
and the run produces two outbound replies, refuting the claim that no
update is processed by two handlers or receives two replies. -/
theorem dispatch_two_handlers_on_help :
    firesOn (mkTextMsg 1 "Ana" "ana" "/help") = [Handler.help, Handler.chat] ∧
    runUpdate store0 (mkTextMsg 1 "Ana" "ana" "/help") (Except.ok "resp")
        (Except.ok ()) (Except.error ()) (Except.error ()) (Except.error ()) =
      [helpText, "resp"] ∧
    (runUpdate store0 (mkTextMsg 1 "Ana" "ana" "/help") (Except.ok "resp")
        (Except.ok ()) (Except.error ()) (Except.error ())
        (Except.error ())).length = 2 :=
  ⟨by decide, by decide, by decide⟩

/-- C1 amended: in the polling variant a text update is acted on by at most
one route provided its text does not contain the help command, contains
the start command only as a leading prefix, and matches the websearch
route only with the websearch command as a leading prefix; in the webhook
variant the unguarded message route additionally acts on every update. -/
theorem dispatch_amended :
    (∀ (cid : Int) (fn un t : String),
      containsJs t "/help" = false →
      (containsJs t "/start" = true → jsStartsWith t "/start" = true) →
      ((websearchQuery t).isSome = true → jsStartsWith t "/websearch" = true) →
      (firesOn (mkTextMsg cid fn un t)).length ≤ 1) ∧
    (∀ m : Msg, Handler.chat ∈ firesOnW m) := by
  constructor
  · intro cid fn un t hHelp hStart hWs
    rw [firesOn_text]
    cases hS : containsJs t "/start" with
    | true =>
      have hsw := hStart hS
      have hMA : messageActs t = false := by simp [messageActs, hsw]
      cases hW : (websearchQuery t).isSome with
      | true => exact (start_websearch_clash t hsw (hWs hW)).elim
      | false => simp [hHelp, hW, hMA]
    | false =>
      cases hW : (websearchQuery t).isSome with
      | true =>
        have hsw := hWs hW
        have hMA : messageActs t = false := by simp [messageActs, hsw]
        simp [hS, hHelp, hMA]
      | false =>
        cases hMA : messageActs t with
        | true => simp [hS, hHelp, hW, hMA]
        | false => simp [hS, hHelp, hW, hMA]
  · intro m
    simp only [firesOnW]
    exact List.mem_append_right _ (List.mem_singleton_self _)

/-- Witness for the amended C1 dispatch theorem at a plain text update. -/
theorem dispatch_amended_witness :
    containsJs "hello" "/help" = false ∧
    (containsJs "hello" "/start" = true → jsStartsWith "hello" "/start" = true) ∧
    ((websearchQuery "hello").isSome = true →
      jsStartsWith "hello" "/websearch" = true) ∧
    (firesOn (mkTextMsg 1 "Ana" "ana" "hello")).length ≤ 1 :=
  ⟨by decide, by decide, by decide,
   dispatch_amended.1 1 "Ana" "ana" "hello" (by decide) (by decide) (by decide)⟩

/-- C6: every photo update with a non-empty photo-size list ends with exactly
one reply, either the fixed error reply with the store untouched or the
description reply with exactly one image turn appended; a failure of file
resolution, download, generative call or store write yields the fixed
error reply, in both variants. -/
theorem photo_terminal_outcomes :
    ∀ (store : Store) (cid : Int) (photo : List String) (fid : String)
      (gf : FileResult) (dl : DownloadResult) (ai : AIResult) (aiW : AIResultW)
      (sv : SaveResult),
      photo ≠ [] →
      (∃ f, photo.getLast? = some f) ∧
      (photoHandler store cid fid gf dl ai sv = (store, [imgErr]) ∨
        ∃ d, ai = Except.ok d ∧
          photoHandler store cid fid gf dl ai sv =
            ({ store with turns := store.turns ++
                [{ chat_id := cid, user_input := "image", bot_response := d }] },
             ["🖼 Image Analysis: " ++ d])) ∧
      (gf = Except.error () →
        photoHandler store cid fid gf dl ai sv = (store, [imgErr])) ∧
      (dl = Except.error () →
        photoHandler store cid fid gf dl ai sv = (store, [imgErr])) ∧
      (ai = Except.error () →
        photoHandler store cid fid gf dl ai sv = (store, [imgErr])) ∧
      (sv = Except.error () →
        photoHandler store cid fid gf dl ai sv = (store, [imgErr])) ∧
      (photoHandlerW store cid fid gf dl aiW sv = (store, [imgErr]) ∨
        ∃ d, photoHandlerW store cid fid gf dl aiW sv =
          ({ store with turns := store.turns ++
              [{ chat_id := cid, user_input := "image", bot_response := d }] },
           ["🖼 Image Analysis: " ++ d])) := by
  intro store cid photo fid gf dl ai aiW sv hne
  refine ⟨getLast?_of_ne_nil photo hne, ?_, ?_, ?_, ?_, ?_, ?_⟩
  · rcases gf with e | f
    · exact Or.inl rfl
    · rcases dl with e | b
      · exact Or.inl rfl
      · rcases ai with e | d
        · exact Or.inl rfl
        · rcases sv with e | u
          · exact Or.inl rfl
          · exact Or.inr ⟨d, rfl, rfl⟩
  · intro h
    subst h
    rfl
  · intro h
    subst h
    rcases gf with e | f
    · rfl
    · rfl
  · intro h
    subst h
    rcases gf with e | f
    · rfl
    · rcases dl with e | b
      · rfl
      · rfl
  · intro h
    subst h
    rcases gf with e | f
    · rfl
    · rcases dl with e | b
      · rfl
      · rcases ai with e | d
        · rfl
        · rfl
  · rcases gf with e | f
    · exact Or.inl rfl
    · rcases dl with e | b
      · exact Or.inl rfl
      · rcases aiW with e | cand
        · exact Or.inl rfl
        · rcases sv with e | u
          · exact Or.inl rfl
          · exact Or.inr ⟨cand.getD noDescriptionW, rfl⟩

/-- Witness for the photo terminal-outcome theorem, at a failing getFile. -/
theorem photo_terminal_outcomes_witness :
    (["f1"] : List String) ≠ [] ∧
    ((∃ f, (["f1"] : List String).getLast? = some f) ∧
     (photoHandler store0 7 "f1" (Except.error ()) (Except.ok [])
          (Except.ok "a cat") (Except.ok ()) = (store0, [imgErr]) ∨
       ∃ d, (Except.ok "a cat" : AIResult) = Except.ok d ∧
         photoHandler store0 7 "f1" (Except.error ()) (Except.ok [])
             (Except.ok "a cat") (Except.ok ()) =
           ({ store0 with turns := store0.turns ++
               [{ chat_id := 7, user_input := "image", bot_response := d }] },
            ["🖼 Image Analysis: " ++ d])) ∧
     ((Except.error () : FileResult) = Except.error () →
       photoHandler store0 7 "f1" (Except.error ()) (Except.ok [])
           (Except.ok "a cat") (Except.ok ()) = (store0, [imgErr])) ∧
     ((Except.ok [] : DownloadResult) = Except.error () →
       photoHandler store0 7 "f1" (Except.error ()) (Except.ok [])
           (Except.ok "a cat") (Except.ok ()) = (store0, [imgErr])) ∧
     ((Except.ok "a cat" : AIResult) = Except.error () →
       photoHandler store0 7 "f1" (Except.error ()) (Except.ok [])
           (Except.ok "a cat") (Except.ok ()) = (store0, [imgErr])) ∧
     ((Except.ok () : SaveResult) = Except.error () →
       photoHandler store0 7 "f1" (Except.error ()) (Except.ok [])
           (Except.ok "a cat") (Except.ok ()) = (store0, [imgErr])) ∧
     (photoHandlerW store0 7 "f1" (Except.error ()) (Except.ok [])
          (Except.ok (some "a cat")) (Except.ok ()) = (store0, [imgErr]) ∨
       ∃ d, photoHandlerW store0 7 "f1" (Except.error ()) (Except.ok [])
             (Except.ok (some "a cat")) (Except.ok ()) =
           ({ store0 with turns := store0.turns ++
               [{ chat_id := 7, user_input := "image", bot_response := d }] },
            ["🖼 Image Analysis: " ++ d]))) :=
  ⟨by decide,
   photo_terminal_outcomes store0 7 ["f1"] "f1" (Except.error ())
     (Except.ok []) (Except.ok "a cat") (Except.ok (some "a cat"))
     (Except.ok ()) (by decide)⟩

/-- C7 counterexample: in the webhook variant a path ending in the webp
extension is mapped to the jpeg mime type, not the webp mime type,
refuting the claim for every resolved file path of the image handler. -/
theorem mime_webhook_webp_cex :
    jsEndsWith "photos/file_1.webp" ".webp" = true ∧
    mimeOfWebhook "photos/file_1.webp" = "image/jpeg" ∧
    mimeOf "photos/file_1.webp" = "image/webp" ∧
    ("image/jpeg" : String) ≠ "image/webp" :=
  ⟨by decide, by decide, by decide, by decide⟩

/-- C7 amended: the polling variant maps a png suffix to the png mime type, a
webp suffix to the webp mime type and everything else to the jpeg mime
type; the webhook variant has no webp case and maps everything that is not
a png suffix, the webp suffix included, to the jpeg mime type. -/
theorem mime_rules :
    (∀ p : String, jsEndsWith p ".png" = true → mimeOf p = "image/png") ∧
    (∀ p : String, jsEndsWith p ".webp" = true → mimeOf p = "image/webp") ∧
    (∀ p : String, jsEndsWith p ".png" = false → jsEndsWith p ".webp" = false →
      mimeOf p = "image/jpeg") ∧
    (∀ p : String, jsEndsWith p ".png" = true → mimeOfWebhook p = "image/png") ∧
    (∀ p : String, jsEndsWith p ".png" = false →
      mimeOfWebhook p = "image/jpeg") := by
  refine ⟨?_, ?_, ?_, ?_, ?_⟩
  · intro p h
    simp [mimeOf, h]
  · intro p h
    have hp := webp_not_png p h
    simp [mimeOf, h, hp]
  · intro p h1 h2
    simp [mimeOf, h1, h2]
  · intro p h
    simp [mimeOfWebhook, h]
  · intro p h
    simp [mimeOfWebhook, h]

/-- Witness for the mime inference rules at concrete paths. -/
theorem mime_rules_witness :
    (jsEndsWith "a.png" ".png" = true ∧ mimeOf "a.png" = "image/png") ∧
    (jsEndsWith "a.webp" ".webp" = true ∧ mimeOf "a.webp" = "image/webp") ∧
    (jsEndsWith "a.gif" ".png" = false ∧ jsEndsWith "a.gif" ".webp" = false ∧
      mimeOf "a.gif" = "image/jpeg") ∧
    (jsEndsWith "b.png" ".png" = true ∧ mimeOfWebhook "b.png" = "image/png") ∧
    (jsEndsWith "b.webp" ".png" = false ∧
      mimeOfWebhook "b.webp" = "image/jpeg") :=
  ⟨⟨by decide, mime_rules.1 "a.png" (by decide)⟩,
   ⟨by decide, mime_rules.2.1 "a.webp" (by decide)⟩,
   ⟨by decide, by decide, mime_rules.2.2.1 "a.gif" (by decide) (by decide)⟩,
   ⟨by decide, mime_rules.2.2.2.1 "b.png" (by decide)⟩,
   ⟨by decide, mime_rules.2.2.2.2 "b.webp" (by decide)⟩⟩

/-- C8: on a chat id unknown to the store the start route saves exactly one
fresh user record, which findOne then returns, and sends the welcome
message followed by the contact-request message; on a known chat id it
saves nothing and sends only the welcome-back message. -/
theorem registration_cases :
    ∀ (store : Store) (m : Msg),
      (findOne store.users m.chat_id = none →
        startHandler store m =
          ({ store with users := store.users ++
              [{ chat_id := m.chat_id, first_name := m.first_name,
                 username := m.username, phone_number := none }] },
           ["Welcome, " ++ m.first_name ++
              "! You can ask questions to this bot. Feel free to drop any questions here",
            "To continue chatting, please share your Phone Number by clicking the button next to the typing area."]) ∧
        findOne (startHandler store m).1.users m.chat_id =
          some { chat_id := m.chat_id, first_name := m.first_name,
                 username := m.username, phone_number := none }) ∧
      (∀ u, findOne store.users m.chat_id = some u →
        startHandler store m =
          (store,
           ["Welcome back " ++ m.first_name ++
              "! Please ask a question. I will be happy to assist you!!"])) := by
  intro store m
  constructor
  · intro h
    constructor
    · simp [startHandler, h]
    · simp only [startHandler, h]
      rw [findOne_append_single store.users m.chat_id _ h]
      simp
  · intro u hu
    simp [startHandler, hu]

/-- Witness for the registration theorem: a fresh chat id on the empty store
and the same chat id again on the resulting store. -/
theorem registration_cases_witness :
    findOne store0.users 42 = none ∧
    (startHandler store0 (mkTextMsg 42 "Ana" "ana" "/start") =
      ({ store0 with users := store0.users ++
          [{ chat_id := 42, first_name := "Ana", username := "ana",
             phone_number := none }] },
       ["Welcome, Ana! You can ask questions to this bot. Feel free to drop any questions here",
        "To continue chatting, please share your Phone Number by clicking the button next to the typing area."]) ∧
     findOne (startHandler store0 (mkTextMsg 42 "Ana" "ana" "/start")).1.users 42 =
       some { chat_id := 42, first_name := "Ana", username := "ana",
              phone_number := none }) :=
  ⟨rfl, (registration_cases store0 (mkTextMsg 42 "Ana" "ana" "/start")).1 rfl⟩

/-- C9: after the contact route runs, the record findOne returns for that
chat id carries exactly the submitted phone number, whatever was stored
before, and running the route twice with the same submission leaves the
same store and replies as running it once. -/
theorem contact_overwrite_idempotent :
    ∀ (store : Store) (cid : Int) (phone : String),
      (∀ u, findOne (contactHandler store cid phone).1.users cid = some u →
        u.phone_number = some phone) ∧
      contactHandler (contactHandler store cid phone).1 cid phone =
        contactHandler store cid phone := by
  intro store cid phone
  constructor
  · intro u hu
    simp only [contactHandler] at hu
    rw [findOne_updateOnePhone] at hu
    rcases Option.map_eq_some'.mp hu with ⟨v, _, hfv⟩
    rw [← hfv]
  · simp [contactHandler, updateOnePhone_idem]

/-- Witness for the contact overwrite theorem: a stored number is replaced by
the submitted one. -/
theorem contact_overwrite_idempotent_witness :
    findOne (contactHandler storeBo 5 "12345").1.users 5 =
      some { chat_id := 5, first_name := "Bo", username := "bo",
             phone_number := some "12345" } ∧
    ({ chat_id := 5, first_name := "Bo", username := "bo",
       phone_number := some "12345" } : User).phone_number = some "12345" :=
  ⟨by decide,
   (contact_overwrite_idempotent storeBo 5 "12345").1
     { chat_id := 5, first_name := "Bo", username := "bo",
       phone_number := some "12345" } (by decide)⟩

/-- C10: the start route is registered with an unanchored regex, so any text
containing the start command as a substring, not only the exact command,
makes the registration route act. -/
theorem start_trigger_unanchored :
    ∀ (cid : Int) (fn un t : String), "/start".data <:+: t.data →
      Handler.registration ∈ firesOn (mkTextMsg cid fn un t) := by
  intro cid fn un t h
  have hb : containsJs t "/start" = true := (containsJs_iff t "/start").mpr h
  rw [firesOn_text]
  simp [hb]

/-- Witness for the unanchored start trigger, at a text that merely mentions
the start command. -/
theorem start_trigger_unanchored_witness :
    ("/start".data <:+: "please /start now".data) ∧
    Handler.registration ∈ firesOn (mkTextMsg 1 "Ana" "ana" "please /start now") :=
  ⟨by decide,
   start_trigger_unanchored 1 "Ana" "ana" "please /start now" (by decide)⟩

end UalBot
